import Mathlib

/-!
Shallow embedding of the GATE Exam Simulator backend (src/backend/server.py)
for verification of its specification.

Conventions of the embedding:
* Python floats (marks, scores, timestamps) are modelled as rationals `ℚ`;
  `float(...)` string parsing is modelled by a decimal parser into `ℚ`.
* MongoDB collections are modelled as lists of records; `find_one` is
  `List.find?` (first match wins), `insert_one` appends, `update_one`
  rewrites the first matching record.
* Python dicts used as documents (`answers`, `question_status`) are
  association lists with Python-dict update semantics: updating an existing
  key rewrites it in place, a new key is appended.
* A raised `HTTPException(status_code, detail)` is `Except.error (code, detail)`;
  an uncaught Python exception (e.g. `IndexError`) is modelled as a 500 error.
* `uuid.uuid4()` and `datetime.now()` are nondeterministic inputs; they are
  passed as explicit parameters (`rid`, `now`, ...).
* `random.sample` is passed as an explicit selection function parameter.
-/

namespace GateExam

/-- The `QuestionType` enum of server.py. -/
inductive QuestionType where
  | MCQ
  | MSQ
  | NAT
deriving DecidableEq, Repr, Inhabited

/-- The `UserRole` enum of server.py. -/
inductive UserRole where
  | student
  | admin
deriving DecidableEq, Repr, Inhabited

/-- The `QuestionStatus` enum of server.py. -/
inductive QuestionStatus where
  | not_visited
  | not_answered
  | answered
  | marked
  | marked_answered
deriving DecidableEq, Repr, Inhabited

/-- A stored answer value: `Union[str, float, List[str]]` in server.py
(`ExamAnswer.answer` and `Question.correct_answer`). -/
inductive Answer where
  | str (s : String)
  | num (q : ℚ)
  | list (l : List String)
deriving DecidableEq, Repr, Inhabited

/-- The `QuestionOption` model of server.py. -/
structure QuestionOption where
  id : String
  text : String
  is_correct : Bool := false
deriving DecidableEq, Repr, Inhabited

/-- The `Question` model of server.py (fields relevant to the verified routes). -/
structure Question where
  id : String
  question_text : String
  question_type : QuestionType
  subject : String
  topic : String
  difficulty : String := "medium"
  marks : ℚ := 1
  negative_marks : ℚ := 33 / 100
  options : List QuestionOption := []
  correct_answer : Option Answer := none
  explanation : Option String := none
  created_by : String
  is_public : Bool := false
deriving DecidableEq, Repr, Inhabited

/-- The `ExamConfig` model of server.py. -/
structure ExamConfig where
  id : String
  name : String
  description : String
  duration_minutes : ℤ := 180
  total_questions : ℕ
  subjects : List String
  randomize_questions : Bool := true
  created_by : String
deriving DecidableEq, Repr, Inhabited

/-- The `ExamSession` model of server.py.  `answers` and `question_status` are
Python dicts, modelled as association lists; `start_time` is a timestamp in
seconds. -/
structure ExamSession where
  id : String
  user_id : String
  exam_config_id : String
  questions : List String
  answers : List (String × Answer) := []
  question_status : List (String × QuestionStatus) := []
  start_time : ℚ
  end_time : Option ℚ := none
  submitted : Bool := false
  current_question : ℤ := 0
deriving DecidableEq, Repr, Inhabited

/-- Per-subject entry of `subject_wise_score` in `submit_exam`. -/
structure SubjWise where
  correct : ℕ := 0
  attempted : ℕ := 0
  total : ℕ := 0
deriving DecidableEq, Repr, Inhabited

/-- The `ExamResult` model of server.py. -/
structure ExamResult where
  id : String
  user_id : String
  exam_session_id : String
  total_questions : ℕ
  attempted : ℕ
  correct : ℕ
  incorrect : ℕ
  score : ℚ
  percentage : ℚ
  subject_wise_score : List (String × SubjWise)
  time_taken_minutes : ℤ
  submitted_at : ℚ
deriving DecidableEq, Repr, Inhabited

/-- A user document as stored by `register` (User model plus hashed password). -/
structure StoredUser where
  id : String
  email : String
  full_name : String
  role : UserRole
  created_at : ℚ
  is_active : Bool := true
  password : String
deriving DecidableEq, Repr, Inhabited

/-- The `User` response model of server.py. -/
structure User where
  id : String
  email : String
  full_name : String
  role : UserRole
  created_at : ℚ
  is_active : Bool := true
deriving DecidableEq, Repr, Inhabited

/-- The MongoDB database `db` of server.py: one list per collection used by
the verified routes. -/
structure ServerState where
  users : List StoredUser := []
  questions : List Question := []
  exam_configs : List ExamConfig := []
  exam_sessions : List ExamSession := []
  exam_results : List ExamResult := []
deriving DecidableEq, Repr, Inhabited

/-- An `HTTPException(status_code, detail)`. -/
abbrev HError := ℕ × String

/-! ### Python dict / Mongo helpers -/

/-- Python `d.get(k)` on a dict modelled as an association list. -/
def dictGet {α : Type} (d : List (String × α)) (k : String) : Option α :=
  match d.find? (fun p => p.1 == k) with
  | some p => some p.2
  | none => none

/-- Python `d[k] = v`: rewrite an existing key in place, append a new key.
This is also the semantics of Mongo `$set` on a document field path. -/
def dictSet {α : Type} (d : List (String × α)) (k : String) (v : α) :
    List (String × α) :=
  if d.any (fun p => p.1 == k) then
    d.map (fun p => if p.1 == k then (p.1, v) else p)
  else
    d ++ [(k, v)]

/-- Mongo `update_one`: apply `f` to the first element satisfying `p`. -/
def updateFirst {α : Type} (p : α → Bool) (f : α → α) : List α → List α
  | [] => []
  | x :: xs => if p x then f x :: xs else x :: updateFirst p f xs

/-! ### Numeric parsing: model of Python `float(...)` -/

/-- Digits of a decimal string chunk, as a natural number; `none` if empty or
a non-digit occurs. -/
def parseDigits (cs : List Char) : Option ℕ :=
  match cs with
  | [] => none
  | _ =>
    cs.foldl
      (fun acc c =>
        match acc with
        | none => none
        | some n => if c.isDigit then some (n * 10 + (c.toNat - 48)) else none)
      (some 0)

/-- Unsigned decimal literal `digits`, `digits.digits`, `digits.` or
`.digits` as a rational. -/
def parseUnsignedDec (cs : List Char) : Option ℚ :=
  match cs.splitOn '.' with
  | [intPart] =>
    (parseDigits intPart).map (fun n => (n : ℚ))
  | [intPart, fracPart] =>
    match intPart, fracPart with
    | [], [] => none
    | [], f => (parseDigits f).map (fun n => (n : ℚ) / (10 : ℚ) ^ f.length)
    | i, [] => (parseDigits i).map (fun n => (n : ℚ))
    | i, f =>
      match parseDigits i, parseDigits f with
      | some ni, some nf => some ((ni : ℚ) + (nf : ℚ) / (10 : ℚ) ^ f.length)
      | _, _ => none
  | _ => none

/-- Model of Python `float(s)` on a string: optional sign, then a decimal
literal.  (Exponents, `inf`/`nan` and surrounding whitespace are outside the
inputs this development evaluates.) -/
def parseFloatStr (s : String) : Option ℚ :=
  match s.toList with
  | '-' :: rest => (parseUnsignedDec rest).map (fun q => -q)
  | '+' :: rest => parseUnsignedDec rest
  | cs => parseUnsignedDec cs

/-- Model of Python `float(x)` on a stored answer value: numbers pass
through, strings are parsed, a list raises `TypeError` (`none`). -/
def pyFloat : Answer → Option ℚ
  | .num q => some q
  | .str s => parseFloatStr s
  | .list _ => none

/-- Model of Python `float(x)` on an optional value (`correct_answer` may be
absent/None, which raises `TypeError`). -/
def pyFloatOpt : Option Answer → Option ℚ
  | none => none
  | some a => pyFloat a

/-- Python `int(x)` on a rational: truncation toward zero. -/
def pyTrunc (q : ℚ) : ℤ := q.num / (q.den : ℤ)

/-- Python `max(0, x)` on a rational. -/
def pyMax0 (x : ℚ) : ℚ := if x ≤ 0 then 0 else x

/-- Python list indexing `l[i]` with an `int` index: non-negative indexes
from the front, negative indexes from the end, out-of-range raises
`IndexError` (`none`). -/
def pyIndex {α : Type} (l : List α) (i : ℤ) : Option α :=
  if 0 ≤ i then l.get? i.toNat
  else if -(l.length : ℤ) ≤ i then l.get? ((l.length : ℤ) + i).toNat
  else none

/-! ### Answer checking (`submit_exam`, lines 694-710) -/

/-- One step of `submit_exam`'s per-question correctness check, given the
question record and the stored answer for it. -/
def checkAnswer (question : Question) (user_answer : Answer) : Bool :=
  match question.question_type with
  | .MCQ =>
    -- For MCQ, check if selected option is correct
    let correct_options :=
      (question.options.filter (fun opt => opt.is_correct)).map (fun opt => opt.id)
    match user_answer with
    | .str s => correct_options.contains s
    | _ => false
  | .MSQ =>
    -- For MSQ, check if all selected options are correct
    let correct_options : Finset Answer :=
      (((question.options.filter (fun opt => opt.is_correct)).map
        (fun opt => Answer.str opt.id)).toFinset)
    let user_options : Finset Answer :=
      match user_answer with
      | .list l => (l.map Answer.str).toFinset
      | a => {a}
    user_options = correct_options
  | .NAT =>
    -- For NAT, check numerical answer; parse failure is caught, not raised
    match pyFloat user_answer, pyFloatOpt question.correct_answer with
    | some x, some y => x == y
    | _, _ => false

/-! ### Scoring loop of `submit_exam` (lines 674-718) -/

/-- Accumulator of the scoring loop in `submit_exam`. -/
structure ScoreState where
  correct : ℕ := 0
  incorrect : ℕ := 0
  total_score : ℚ := 0
  subject_wise_score : List (String × SubjWise) := []
deriving DecidableEq, Repr, Inhabited

/-- Python `if subject not in subject_wise_score: init; bucket[field] += 1`. -/
def swInit (sw : List (String × SubjWise)) (subject : String) :
    List (String × SubjWise) :=
  match dictGet sw subject with
  | some _ => sw
  | none => dictSet sw subject {}

/-- Bump one field of the subject bucket (the bucket is assumed present). -/
def swBump (sw : List (String × SubjWise)) (subject : String)
    (f : SubjWise → SubjWise) : List (String × SubjWise) :=
  sw.map (fun p => if p.1 == subject then (p.1, f p.2) else p)

/-- The `for question_id in session["questions"]` loop of `submit_exam`:
looks each question up in the store, skips missing ones, accumulates
correct/incorrect counts, the running score, and the subject-wise buckets. -/
def scoreLoop (store : List Question) (answers : List (String × Answer)) :
    List String → ScoreState → ScoreState
  | [], st => st
  | question_id :: rest, st =>
    match store.find? (fun q => q.id == question_id) with
    | none => scoreLoop store answers rest st
    | some question =>
      let sw := swBump (swInit st.subject_wise_score question.subject)
        question.subject (fun b => { b with total := b.total + 1 })
      match dictGet answers question_id with
      | none => scoreLoop store answers rest { st with subject_wise_score := sw }
      | some user_answer =>
        let sw := swBump sw question.subject
          (fun b => { b with attempted := b.attempted + 1 })
        if checkAnswer question user_answer then
          scoreLoop store answers rest
            { correct := st.correct + 1,
              incorrect := st.incorrect,
              total_score := st.total_score + question.marks,
              subject_wise_score :=
                swBump sw question.subject
                  (fun b => { b with correct := b.correct + 1 }) }
        else
          scoreLoop store answers rest
            { correct := st.correct,
              incorrect := st.incorrect + 1,
              total_score := st.total_score - question.negative_marks,
              subject_wise_score := sw }

/-- The result computation of `submit_exam` (lines 670-737), as a pure
function of the session, the question store, the submission time `now`
(seconds) and the fresh result id `rid`. -/
def computeResult (now : ℚ) (rid uid : String) (store : List Question)
    (session : ExamSession) : ExamResult :=
  let total_questions := session.questions.length
  let attempted := session.question_status.countP
    (fun p => p.2 == QuestionStatus.answered || p.2 == QuestionStatus.marked_answered)
  let st := scoreLoop store session.answers session.questions {}
  { id := rid,
    user_id := uid,
    exam_session_id := session.id,
    total_questions := total_questions,
    attempted := attempted,
    correct := st.correct,
    incorrect := st.incorrect,
    score := pyMax0 st.total_score,
    percentage :=
      if 0 < total_questions then (st.correct : ℚ) / (total_questions : ℚ) * 100
      else 0,
    subject_wise_score := st.subject_wise_score,
    time_taken_minutes := pyTrunc ((now - session.start_time) / 60),
    submitted_at := now }

/-! ### Routes -/

/-- Mongo `find_one` by session id and owner on `exam_sessions`. -/
def findSession (st : ServerState) (uid sid : String) : Option ExamSession :=
  st.exam_sessions.find? (fun s => s.id == sid && s.user_id == uid)

/-- Route `POST /exam/submit/...` (`submit_exam`, lines 650-752). -/
def submit_exam (now : ℚ) (rid : String) (uid sid : String)
    (st : ServerState) : Except HError (ServerState × ExamResult) :=
  match findSession st uid sid with
  | none => .error (404, "Exam session not found")
  | some session =>
    match
      if session.submitted then
        st.exam_results.find? (fun r => r.exam_session_id == sid)
      else none
    with
    | some existing_result => .ok (st, existing_result)
    | none =>
      let result := computeResult now rid uid st.questions session
      let st' : ServerState :=
        { st with
          exam_sessions :=
            updateFirst (fun s => s.id == sid)
              (fun s => { s with submitted := true, end_time := some now })
              st.exam_sessions,
          exam_results := st.exam_results ++ [result] }
      .ok (st', result)

/-- The initial `question_status` dict of `start_exam` (lines 542-543):
all question ids `NOT_VISITED`, then the first id set to `NOT_ANSWERED`. -/
def initStatus (question_ids : List String) : List (String × QuestionStatus) :=
  let base := question_ids.foldl (fun d q => dictSet d q .not_visited) []
  match question_ids with
  | [] => base
  | q0 :: _ => dictSet base q0 .not_answered

/-- The fresh session record built by `start_exam` (lines 546-551). -/
def newSession (sid : String) (now : ℚ) (uid exam_config_id : String)
    (question_ids : List String) : ExamSession :=
  { id := sid,
    user_id := uid,
    exam_config_id := exam_config_id,
    questions := question_ids,
    question_status := initStatus question_ids,
    start_time := now }

/-- The creation branch of `start_exam` (lines 525-554): question selection,
status initialization, session insertion.  Accessing `question_ids[0]` on an
empty list raises `IndexError`, modelled as a 500 error. -/
def start_exam_new (sample : List Question → ℕ → List Question)
    (sid_new : String) (now : ℚ) (uid exam_config_id : String)
    (exam_config : ExamConfig) (st : ServerState) :
    Except HError (ServerState × ExamSession) :=
  if (st.questions.filter
      (fun q => exam_config.subjects.contains q.subject)).length
      < exam_config.total_questions then
    .error (400, "Not enough questions available for this exam")
  else
    match
      (sample (st.questions.filter
        (fun q => exam_config.subjects.contains q.subject))
        exam_config.total_questions).map (fun q => q.id)
    with
    | [] => .error (500, "IndexError")
    | q0 :: qrest =>
      .ok ({ st with
             exam_sessions := st.exam_sessions
               ++ [newSession sid_new now uid exam_config_id (q0 :: qrest)] },
        newSession sid_new now uid exam_config_id (q0 :: qrest))

/-- Route `POST /exam/start/...` (`start_exam`, lines 505-554).
`sample pool k` stands for `random.sample(pool, k)`; `sid_new` for the fresh
session uuid; `now` for the start timestamp. -/
def start_exam (sample : List Question → ℕ → List Question)
    (sid_new : String) (now : ℚ) (uid exam_config_id : String)
    (st : ServerState) : Except HError (ServerState × ExamSession) :=
  match st.exam_configs.find? (fun c => c.id == exam_config_id) with
  | none => .error (404, "Exam configuration not found")
  | some exam_config =>
    match
      st.exam_sessions.find? (fun s =>
        s.user_id == uid && s.exam_config_id == exam_config_id && !s.submitted)
    with
    | some existing_session => .ok (st, existing_session)
    | none => start_exam_new sample sid_new now uid exam_config_id exam_config st

/-- The answer-key-stripping of `get_exam_question` (lines 606-617):
delete `correct_answer` and every option's `is_correct` from the document,
then rebuild the pydantic `Question`, whose defaults refill the deleted
fields with `None` and `False`. -/
def sanitizeQuestion (question : Question) : Question :=
  { question with
    correct_answer := none,
    options := question.options.map (fun o => { o with is_correct := false }) }

/-- The payload returned by `get_exam_question` (lines 616-621). -/
structure QuestionPayload where
  question : Question
  question_number : ℤ
  total_questions : ℕ
  current_answer : Option Answer
deriving DecidableEq, Repr, Inhabited

/-- Route `GET /exam/question/...` (`get_exam_question`,
lines 571-621).  The index is a raw `int`: only `index >= len(questions)` is
rejected; a negative index reaches Python list indexing. -/
def get_exam_question (uid sid : String) (question_index : ℤ)
    (st : ServerState) : Except HError (ServerState × QuestionPayload) :=
  match findSession st uid sid with
  | none => .error (404, "Exam session not found or already submitted")
  | some session =>
    if session.submitted then
      .error (404, "Exam session not found or already submitted")
    else if (session.questions.length : ℤ) ≤ question_index then
      .error (400, "Invalid question index")
    else
      match pyIndex session.questions question_index with
      | none => .error (500, "IndexError")
      | some question_id =>
        match st.questions.find? (fun q => q.id == question_id) with
        | none => .error (404, "Question not found")
        | some question =>
          let st' : ServerState :=
            { st with
              exam_sessions :=
                updateFirst (fun s => s.id == sid)
                  (fun s =>
                    { s with
                      current_question := question_index,
                      question_status :=
                        dictSet s.question_status question_id .not_answered })
                  st.exam_sessions }
          .ok (st',
            { question := sanitizeQuestion question,
              question_number := question_index + 1,
              total_questions := session.questions.length,
              current_answer := dictGet session.answers question_id })

/-- Route `POST /exam/answer/...` (`submit_answer`, lines 623-648). -/
def submit_answer (uid sid question_id : String) (answer : Answer)
    (stat : QuestionStatus) (st : ServerState) :
    Except HError (ServerState × String) :=
  match findSession st uid sid with
  | none => .error (404, "Exam session not found or already submitted")
  | some session =>
    if session.submitted then
      .error (404, "Exam session not found or already submitted")
    else
      .ok ({ st with
          exam_sessions :=
            updateFirst (fun s => s.id == sid)
              (fun s =>
                { s with
                  answers := dictSet s.answers question_id answer,
                  question_status := dictSet s.question_status question_id stat })
              st.exam_sessions },
        "Answer saved successfully")

/-- Route `POST /auth/register` (`register`, lines 218-238).  `new_id`/`now` stand
for the fresh uuid and timestamp; `hash` for `get_password_hash`. -/
def register (new_id : String) (now : ℚ) (hash : String → String)
    (email password full_name : String) (role : UserRole) (st : ServerState) :
    Except HError (ServerState × User) :=
  match st.users.find? (fun u => u.email == email) with
  | some _ => .error (400, "Email already registered")
  | none =>
    let user_obj : User :=
      { id := new_id, email := email, full_name := full_name, role := role,
        created_at := now, is_active := true }
    let stored : StoredUser :=
      { id := new_id, email := email, full_name := full_name, role := role,
        created_at := now, is_active := true, password := hash password }
    .ok ({ st with users := st.users ++ [stored] }, user_obj)

/-! ### JSON view of the payload

FastAPI serializes the pydantic `Question` model embedded in
`get_exam_question`'s response with all declared fields present (`None`
becomes `null`, booleans stay booleans).  This is the field-level view the
spec's "never includes an `is_correct` field or `correct_answer` field"
speaks about. -/

/-- A JSON value. -/
inductive JVal where
  | null
  | bool (b : Bool)
  | num (q : ℚ)
  | str (s : String)
  | arr (l : List JVal)
  | obj (l : List (String × JVal))

/-- Serialization of a stored answer value. -/
def answerToJson : Answer → JVal
  | .str s => .str s
  | .num q => .num q
  | .list l => .arr (l.map JVal.str)

/-- Serialization of a `QuestionOption` pydantic model: every declared field
is emitted. -/
def optionToJson (o : QuestionOption) : JVal :=
  .obj [("id", .str o.id), ("text", .str o.text), ("is_correct", .bool o.is_correct)]

/-- Serialization of a `Question` pydantic model: every declared field is
emitted; an absent optional field is emitted as `null`. -/
def questionToJson (q : Question) : JVal :=
  .obj
    [("id", .str q.id),
     ("question_text", .str q.question_text),
     ("question_type", .str
       (match q.question_type with
        | .MCQ => "MCQ"
        | .MSQ => "MSQ"
        | .NAT => "NAT")),
     ("subject", .str q.subject),
     ("topic", .str q.topic),
     ("difficulty", .str q.difficulty),
     ("marks", .num q.marks),
     ("negative_marks", .num q.negative_marks),
     ("options", .arr (q.options.map optionToJson)),
     ("correct_answer",
       match q.correct_answer with
       | none => .null
       | some a => answerToJson a),
     ("explanation",
       match q.explanation with
       | none => .null
       | some e => .str e),
     ("created_by", .str q.created_by),
     ("is_public", .bool q.is_public)]

/-- The top-level keys of a JSON object. -/
def objKeys : JVal → List String
  | .obj l => l.map (fun p => p.1)
  | _ => []

/-! ### Spec-side definitions (worded from the claims, for comparison) -/

/-- Per the spec: the set of correct-option ids of a question. -/
def correctIdSet (q : Question) : Finset Answer :=
  ((q.options.filter (fun o => o.is_correct)).map (fun o => Answer.str o.id)).toFinset

/-- Per the spec (MSQ rule): "treat answer as a set (if not already a
sequence, wrap the single value into a one-element set)". -/
def answerAsSet : Answer → Finset Answer
  | .list l => (l.map Answer.str).toFinset
  | a => {a}

/-- Holds when the scoring engine counts session question `qid` as a
correctly answered question: it is found in the store, has a stored answer,
and the answer checks out. -/
def qCorrect (store : List Question) (answers : List (String × Answer))
    (qid : String) : Bool :=
  match store.find? (fun q => q.id == qid), dictGet answers qid with
  | some q, some a => checkAnswer q a
  | _, _ => false

/-- Holds when the scoring engine counts session question `qid` as an
incorrectly answered question. -/
def qIncorrect (store : List Question) (answers : List (String × Answer))
    (qid : String) : Bool :=
  match store.find? (fun q => q.id == qid), dictGet answers qid with
  | some q, some a => !checkAnswer q a
  | _, _ => false

/-- The marks contributed by session question `qid` when correctly answered. -/
def markOfCorrect (store : List Question) (answers : List (String × Answer))
    (qid : String) : ℚ :=
  match store.find? (fun q => q.id == qid), dictGet answers qid with
  | some q, some a => if checkAnswer q a then q.marks else 0
  | _, _ => 0

/-- The negative marks incurred by session question `qid` when incorrectly
answered. -/
def negOfIncorrect (store : List Question) (answers : List (String × Answer))
    (qid : String) : ℚ :=
  match store.find? (fun q => q.id == qid), dictGet answers qid with
  | some q, some a => if checkAnswer q a then 0 else q.negative_marks
  | _, _ => 0

/-- The number of session questions holding a stored answer (the spec's
"questions with a stored answer"). -/
def answeredCount (session : ExamSession) : ℕ :=
  session.questions.countP (fun qid => (dictGet session.answers qid).isSome)

/-! ### Shared concrete fixtures for witnesses and counterexamples -/

/-- An MSQ question with correct options A and B. -/
def fxMSQ : Question :=
  { id := "qMSQ", question_text := "pick", question_type := .MSQ,
    subject := "Math", topic := "Sets", created_by := "adm",
    options :=
      [{ id := "A", text := "a", is_correct := true },
       { id := "B", text := "b", is_correct := true },
       { id := "C", text := "c", is_correct := false }] }

/-- A NAT question whose key is the number 4. -/
def fxNAT : Question :=
  { id := "qNAT", question_text := "compute", question_type := .NAT,
    subject := "Math", topic := "Arith", created_by := "adm",
    correct_answer := some (.num 4) }

/-- A session holding a stored answer whose status is `MARKED`: it is not
counted in `attempted`. -/
def fxMarkedSession : ExamSession :=
  { id := "s1", user_id := "u1", exam_config_id := "e1",
    questions := ["qMSQ"],
    answers := [("qMSQ", .list ["A", "B"])],
    question_status := [("qMSQ", .marked)],
    start_time := 0 }

/-- The HTTP status code of the Conflict error category. -/
def conflictStatus : ℕ := 409

/-- A state with one registered user. -/
def fxUserState : ServerState :=
  { users :=
      [{ id := "u1", email := "a@x.com", full_name := "Ann", role := .student,
         created_at := 0, is_active := true, password := "h" }] }

/-- An MCQ question with correct option o1. -/
def fxQ1 : Question :=
  { id := "q1", question_text := "one", question_type := .MCQ,
    subject := "Math", topic := "T", created_by := "adm",
    options :=
      [{ id := "o1", text := "x", is_correct := true },
       { id := "o2", text := "y", is_correct := false }],
    correct_answer := some (.str "o1") }

/-- A second MCQ question with correct option o3. -/
def fxQ2 : Question :=
  { id := "q2", question_text := "two", question_type := .MCQ,
    subject := "Math", topic := "T", created_by := "adm",
    options :=
      [{ id := "o3", text := "x", is_correct := true },
       { id := "o4", text := "y", is_correct := false }],
    correct_answer := some (.str "o3") }

/-- An unsubmitted session of user u1 over questions q1, q2. -/
def fxSession : ExamSession :=
  { id := "s1", user_id := "u1", exam_config_id := "e1",
    questions := ["q1", "q2"],
    answers := [("q1", .str "o1")],
    question_status := [("q1", .answered), ("q2", .not_visited)],
    start_time := 0 }

/-- A server state with the two questions and the unsubmitted session. -/
def fxState : ServerState :=
  { questions := [fxQ1, fxQ2],
    exam_sessions := [fxSession] }

/-- An exam config over subject Math asking for 2 questions. -/
def fxCfg : ExamConfig :=
  { id := "e1", name := "Mock", description := "d", total_questions := 2,
    subjects := ["Math"], created_by := "adm" }

/-- A state ready for session creation: config present, two Math
questions, no session yet. -/
def fxStartState : ServerState :=
  { questions := [fxQ1, fxQ2],
    exam_configs := [fxCfg] }

/-- The deterministic stand-in for `random.sample` used by witnesses:
take the first k. -/
def fxSample (pool : List Question) (k : ℕ) : List Question := pool.take k

/-- The session-id/question-list view preserved by the mutating routes. -/
def sessionLists (st : ServerState) : List (String × List String) :=
  st.exam_sessions.map (fun s => (s.id, s.questions))

/-- The session produced by a concrete successful Start session call. -/
def fxStarted : ServerState × ExamSession :=
  (start_exam fxSample "s9" 5 "u1" "e1" fxStartState).toOption.getD default

/-- The state produced by a concrete successful Fetch question call. -/
def fxFetched : ServerState × QuestionPayload :=
  (get_exam_question "u1" "s1" 0 fxState).toOption.getD default

/-- The state produced by a concrete successful Submit answer call. -/
def fxAnswered : ServerState × String :=
  (submit_answer "u1" "s1" "q2" (.str "o3") .answered fxState).toOption.getD
    default

/-- The state produced by a concrete successful Submit exam call. -/
def fxSubmitted : ServerState × ExamResult :=
  (submit_exam 120 "r1" "u1" "s1" fxState).toOption.getD default

/-- Two option records that agree on everything except `is_correct`. -/
def optionKeyEquiv (o o' : QuestionOption) : Prop :=
  o.id = o'.id ∧ o.text = o'.text

/-- Two question records that agree on everything except the answer key
(`correct_answer` and the options' `is_correct` flags). -/
def questionKeyEquiv (q q' : Question) : Prop :=
  q.id = q'.id ∧ q.question_text = q'.question_text
    ∧ q.question_type = q'.question_type ∧ q.subject = q'.subject
    ∧ q.topic = q'.topic ∧ q.difficulty = q'.difficulty
    ∧ q.marks = q'.marks ∧ q.negative_marks = q'.negative_marks
    ∧ List.Forall₂ optionKeyEquiv q.options q'.options
    ∧ q.explanation = q'.explanation ∧ q.created_by = q'.created_by
    ∧ q.is_public = q'.is_public

/-- A question store agreeing with `fxState`'s except for the answer keys:
`fxQ1` loses its key, `fxQ2`'s key moves to the other option. -/
def fxQs2 : List Question :=
  [{ fxQ1 with
     correct_answer := none,
     options :=
       [{ id := "o1", text := "x", is_correct := false },
        { id := "o2", text := "y", is_correct := true }] },
   { fxQ2 with
     correct_answer := some (.str "o4"),
     options :=
       [{ id := "o3", text := "x", is_correct := false },
        { id := "o4", text := "y", is_correct := true }] }]

/-! ### Characterization of the scoring loop -/

theorem scoreLoop_correct_eq (store : List Question)
    (answers : List (String × Answer)) :
    ∀ (qs : List String) (st : ScoreState),
      (scoreLoop store answers qs st).correct
        = st.correct + qs.countP (qCorrect store answers) := by
  intro qs
  induction qs with
  | nil => intro st; simp [scoreLoop]
  | cons qid rest ih =>
    intro st
    cases hfind : store.find? (fun q => q.id == qid) with
    | none => simp [scoreLoop, hfind, ih, List.countP_cons, qCorrect]
    | some q =>
      cases hans : dictGet answers qid with
      | none => simp [scoreLoop, hfind, hans, ih, List.countP_cons, qCorrect]
      | some a =>
        cases hchk : checkAnswer q a with
        | true =>
          simp only [scoreLoop, hfind, hans, hchk, if_true, ih,
            List.countP_cons, qCorrect]
          omega
        | false =>
          simp only [scoreLoop, hfind, hans, hchk, Bool.false_eq_true,
            if_false, ih, List.countP_cons, qCorrect]
          omega

theorem scoreLoop_incorrect_eq (store : List Question)
    (answers : List (String × Answer)) :
    ∀ (qs : List String) (st : ScoreState),
      (scoreLoop store answers qs st).incorrect
        = st.incorrect + qs.countP (qIncorrect store answers) := by
  intro qs
  induction qs with
  | nil => intro st; simp [scoreLoop]
  | cons qid rest ih =>
    intro st
    cases hfind : store.find? (fun q => q.id == qid) with
    | none => simp [scoreLoop, hfind, ih, List.countP_cons, qIncorrect]
    | some q =>
      cases hans : dictGet answers qid with
      | none => simp [scoreLoop, hfind, hans, ih, List.countP_cons, qIncorrect]
      | some a =>
        cases hchk : checkAnswer q a with
        | true =>
          simp [scoreLoop, hfind, hans, hchk, ih, List.countP_cons, qIncorrect]
          try omega
        | false =>
          simp [scoreLoop, hfind, hans, hchk, ih, List.countP_cons, qIncorrect]
          try omega

theorem scoreLoop_score_eq (store : List Question)
    (answers : List (String × Answer)) :
    ∀ (qs : List String) (st : ScoreState),
      (scoreLoop store answers qs st).total_score
        = st.total_score + ((qs.map (markOfCorrect store answers)).sum
            - (qs.map (negOfIncorrect store answers)).sum) := by
  intro qs
  induction qs with
  | nil => intro st; simp [scoreLoop]
  | cons qid rest ih =>
    intro st
    cases hfind : store.find? (fun q => q.id == qid) with
    | none =>
      simp only [scoreLoop, hfind, ih, List.map_cons, List.sum_cons,
        markOfCorrect, negOfIncorrect]
      ring
    | some q =>
      cases hans : dictGet answers qid with
      | none =>
        simp only [scoreLoop, hfind, hans, ih, List.map_cons, List.sum_cons,
          markOfCorrect, negOfIncorrect]
        ring
      | some a =>
        cases hchk : checkAnswer q a with
        | true =>
          simp only [scoreLoop, hfind, hans, hchk, if_true, ih,
            List.map_cons, List.sum_cons, markOfCorrect, negOfIncorrect]
          ring
        | false =>
          simp only [scoreLoop, hfind, hans, hchk, Bool.false_eq_true,
            if_false, ih, List.map_cons, List.sum_cons, markOfCorrect,
            negOfIncorrect]
          ring

theorem pyMax0_eq_max (x : ℚ) : pyMax0 x = max 0 x := by
  by_cases h : x ≤ 0
  · simp [pyMax0, h, max_eq_left h]
  · have h' : 0 ≤ x := le_of_lt (lt_of_not_le h)
    simp [pyMax0, h, max_eq_right h']

/-! ### Claim C3 -/

/-- C3: for every session scored by Submit exam, the Result's score equals
`max(0, sum of marks over correctly answered questions minus sum of
negative_marks over incorrectly answered questions)`; in particular the
score is never negative. -/
theorem score_is_clamped_marks_minus_negatives (now : ℚ) (rid uid : String)
    (store : List Question) (session : ExamSession) :
    (computeResult now rid uid store session).score
        = max 0 ((session.questions.map (markOfCorrect store session.answers)).sum
            - (session.questions.map (negOfIncorrect store session.answers)).sum)
      ∧ 0 ≤ (computeResult now rid uid store session).score := by
  have hs := scoreLoop_score_eq store session.answers session.questions {}
  have hscore :
      (computeResult now rid uid store session).score
        = pyMax0 ((session.questions.map (markOfCorrect store session.answers)).sum
            - (session.questions.map (negOfIncorrect store session.answers)).sum) := by
    simp only [computeResult, hs]
    norm_num
  refine ⟨?_, ?_⟩
  · rw [hscore, pyMax0_eq_max]
  · rw [hscore, pyMax0_eq_max]
    exact le_max_left 0 _

/-! ### Claim C4 -/

/-- C4: for every answered MSQ question, scoring treats the stored answer as
a set (wrapping a non-list value into a one-element set) and counts it
correct iff that set is exactly equal to the set of correct-option ids; a
strict subset or superset is incorrect. -/
theorem msq_exact_set_match (q : Question) (hq : q.question_type = .MSQ)
    (a : Answer) :
    (checkAnswer q a = true ↔ answerAsSet a = correctIdSet q)
      ∧ (answerAsSet a ⊂ correctIdSet q → checkAnswer q a = false)
      ∧ (correctIdSet q ⊂ answerAsSet a → checkAnswer q a = false)
      ∧ (∀ b : Answer, (∀ l, b ≠ .list l) → answerAsSet b = {b}) := by
  have hmain : checkAnswer q a = true ↔ answerAsSet a = correctIdSet q := by
    cases a <;>
      simp [checkAnswer, hq, answerAsSet, correctIdSet, decide_eq_true_eq]
  refine ⟨hmain, ?_, ?_, ?_⟩
  · intro hsub
    have hne : answerAsSet a ≠ correctIdSet q := ne_of_lt hsub
    have h : ¬ checkAnswer q a = true := fun h => hne (hmain.mp h)
    simpa using h
  · intro hsup
    have hne : answerAsSet a ≠ correctIdSet q := (ne_of_lt hsup).symm
    have h : ¬ checkAnswer q a = true := fun h => hne (hmain.mp h)
    simpa using h
  · intro b hb
    cases b with
    | str s => simp [answerAsSet]
    | num x => simp [answerAsSet]
    | list l => exact absurd rfl (hb l)

/-! ### Claim C5 -/

/-- C5: for every answered NAT question, scoring counts the answer correct
iff the numeric parse of the stored answer equals the numeric parse of
`correct_answer` exactly; a parse failure on either side yields incorrect
(and, the checker being a total function, no error is raised). -/
theorem nat_exact_parse_equality (q : Question) (hq : q.question_type = .NAT)
    (a : Answer) :
    (checkAnswer q a = true
        ↔ ∃ x : ℚ, pyFloat a = some x ∧ pyFloatOpt q.correct_answer = some x)
      ∧ (pyFloat a = none → checkAnswer q a = false)
      ∧ (pyFloatOpt q.correct_answer = none → checkAnswer q a = false) := by
  refine ⟨?_, ?_, ?_⟩
  · cases hu : pyFloat a with
    | none => cases hk : pyFloatOpt q.correct_answer <;> simp [checkAnswer, hq, hu, hk]
    | some xv =>
      cases hk : pyFloatOpt q.correct_answer with
      | none => simp [checkAnswer, hq, hu, hk]
      | some yv =>
        simp only [checkAnswer, hq, hu, hk, beq_iff_eq, Option.some.injEq]
        constructor
        · intro h
          exact ⟨xv, rfl, h.symm⟩
        · rintro ⟨x, h1, h2⟩
          exact h1.trans h2.symm
  · intro hu
    cases hk : pyFloatOpt q.correct_answer <;> simp [checkAnswer, hq, hu, hk]
  · intro hk
    cases hu : pyFloat a <;> simp [checkAnswer, hq, hu, hk]

theorem msq_exact_set_match_witness :
    checkAnswer fxMSQ (.list ["A", "B"]) = true
      ∧ checkAnswer fxMSQ (.list ["A"]) = false
      ∧ checkAnswer fxMSQ (.list ["A", "B", "C"]) = false :=
  ⟨((msq_exact_set_match fxMSQ rfl (.list ["A", "B"])).1).mpr (by decide),
   (msq_exact_set_match fxMSQ rfl (.list ["A"])).2.1 (by decide),
   (msq_exact_set_match fxMSQ rfl (.list ["A", "B", "C"])).2.2.1 (by decide)⟩

theorem nat_exact_parse_equality_witness :
    checkAnswer fxNAT (.str "4") = true
      ∧ checkAnswer fxNAT (.str "four") = false :=
  ⟨((nat_exact_parse_equality fxNAT rfl (.str "4")).1).mpr
      ⟨4, by decide, by decide⟩,
   (nat_exact_parse_equality fxNAT rfl (.str "four")).2.1 (by decide)⟩

/-! ### Claim C6 (corrected)

The `attempted` count of the Result is computed from `question_status`
(lines 671-672), not from the stored answers: an answer saved with status
`MARKED` is a stored answer that is not counted as attempted.  The
per-question loop, however, does skip unanswered questions entirely. -/

/-- C6 counterexample: a session whose single question has a stored answer
saved with status `MARKED` (reachable through Submit answer) has
`attempted = 0`, while exactly one question carries a stored answer —
`attempted` does not count the questions with a stored answer. -/
theorem unanswered_contributes_nothing_counterexample :
    (computeResult 60 "r1" "u1" [fxMSQ] fxMarkedSession).attempted
      ≠ answeredCount fxMarkedSession := by
  decide

/-- C6 (amended): a session question with no stored answer contributes
nothing to the Result's correct and incorrect counts, to its score (no
negative marking), or to `attempted`; but `attempted` counts exactly the
`question_status` entries with status `ANSWERED` or `MARKED_ANSWERED`, which
coincides with the number of stored answers only when answers and statuses
are aligned. -/
theorem unanswered_contributes_nothing (now : ℚ) (rid uid : String)
    (store : List Question) (session : ExamSession) (qid : String)
    (qs1 qs2 : List String)
    (hq : session.questions = qs1 ++ qid :: qs2)
    (hno : dictGet session.answers qid = none) :
    (computeResult now rid uid store session).correct
        = (computeResult now rid uid store
            { session with questions := qs1 ++ qs2 }).correct
      ∧ (computeResult now rid uid store session).incorrect
        = (computeResult now rid uid store
            { session with questions := qs1 ++ qs2 }).incorrect
      ∧ (computeResult now rid uid store session).score
        = (computeResult now rid uid store
            { session with questions := qs1 ++ qs2 }).score
      ∧ (computeResult now rid uid store session).attempted
        = (computeResult now rid uid store
            { session with questions := qs1 ++ qs2 }).attempted
      ∧ (computeResult now rid uid store session).attempted
        = session.question_status.countP
            (fun p => p.2 == QuestionStatus.answered
               || p.2 == QuestionStatus.marked_answered) := by
  have hqc : qCorrect store session.answers qid = false := by
    cases hfind : store.find? (fun q => q.id == qid) <;>
      simp [qCorrect, hfind, hno]
  have hqi : qIncorrect store session.answers qid = false := by
    cases hfind : store.find? (fun q => q.id == qid) <;>
      simp [qIncorrect, hfind, hno]
  have hmk : markOfCorrect store session.answers qid = 0 := by
    cases hfind : store.find? (fun q => q.id == qid) <;>
      simp [markOfCorrect, hfind, hno]
  have hng : negOfIncorrect store session.answers qid = 0 := by
    cases hfind : store.find? (fun q => q.id == qid) <;>
      simp [negOfIncorrect, hfind, hno]
  refine ⟨?_, ?_, ?_, rfl, rfl⟩
  · simp only [computeResult, scoreLoop_correct_eq, hq, List.countP_append,
      List.countP_cons, hqc]
    simp
  · simp only [computeResult, scoreLoop_incorrect_eq, hq, List.countP_append,
      List.countP_cons, hqi]
    simp
  · simp only [computeResult, scoreLoop_score_eq, hq, List.map_append,
      List.map_cons, List.sum_append, List.sum_cons, hmk, hng]
    norm_num

theorem unanswered_contributes_nothing_witness :
    (computeResult 60 "r1" "u1" [fxMSQ] fxMarkedSession).attempted
      = fxMarkedSession.question_status.countP
          (fun p => p.2 == QuestionStatus.answered
             || p.2 == QuestionStatus.marked_answered) :=
  (unanswered_contributes_nothing 60 "r1" "u1" [fxMSQ]
    { fxMarkedSession with questions := ["qMSQ", "missing"] }
    "missing" ["qMSQ"] [] rfl (by decide)).2.2.2.2

/-! ### Claim C9 (corrected)

`register` raises `HTTPException(status.HTTP_400_BAD_REQUEST, "Email already
registered")` (lines 222-226) on a duplicate email — a BadRequest, not the
spec's Conflict category. -/

/-- C9 counterexample: registering with an already-registered email fails
with status 400 (BadRequest), not with the Conflict status. -/
theorem register_conflict_counterexample :
    register "u2" 1 (fun p => p) "a@x.com" "pw" "Bob" .student fxUserState
        = .error (400, "Email already registered")
      ∧ (400 : ℕ) ≠ conflictStatus := by
  refine ⟨by rfl, by decide⟩

/-- C9 (amended): a registration whose email already belongs to an existing
user fails with a BadRequest error (HTTP 400, "Email already registered")
and creates no new user; for a fresh email the created User is returned and
appended to the user store. -/
theorem register_duplicate_email_rejected (new_id : String) (now : ℚ)
    (hash : String → String) (email pw name : String) (role : UserRole)
    (st : ServerState) :
    ((st.users.find? (fun u => u.email == email)).isSome →
      register new_id now hash email pw name role st
        = .error (400, "Email already registered"))
      ∧ ((st.users.find? (fun u => u.email == email)) = none →
        register new_id now hash email pw name role st
          = .ok ({ st with users := st.users ++
                [{ id := new_id, email := email, full_name := name,
                   role := role, created_at := now, is_active := true,
                   password := hash pw }] },
              { id := new_id, email := email, full_name := name, role := role,
                created_at := now, is_active := true })) := by
  constructor
  · intro hsome
    cases hfind : st.users.find? (fun u => u.email == email) with
    | none => rw [hfind] at hsome; exact absurd hsome (by simp)
    | some u => simp [register, hfind]
  · intro hnone
    simp [register, hnone]

theorem register_duplicate_email_rejected_witness :
    register "u2" 1 (fun p => p) "a@x.com" "pw" "Bob" .student fxUserState
      = .error (400, "Email already registered") :=
  (register_duplicate_email_rejected "u2" 1 (fun p => p) "a@x.com" "pw" "Bob"
    .student fxUserState).1 (by decide)

/-! ### Claim C10 -/

/-- C10: for an unsubmitted owned session, Fetch question at index rejects
with InvalidIndex exactly the indexes `≥` the question-list length; a
negative index is not rejected and Python negative indexing returns the
question at that offset from the end (index `-1` is the last question),
which the endpoint then sanitizes and returns. -/
theorem negative_index_reaches_list_end (st : ServerState) (uid sid : String)
    (idx : ℤ) (session : ExamSession)
    (hs : findSession st uid sid = some session)
    (hns : session.submitted = false) :
    (get_exam_question uid sid idx st = .error (400, "Invalid question index")
        ↔ (session.questions.length : ℤ) ≤ idx)
      ∧ (-(session.questions.length : ℤ) ≤ idx → idx < 0 →
          pyIndex session.questions idx
            = session.questions.get? ((session.questions.length : ℤ) + idx).toNat)
      ∧ (session.questions ≠ [] →
          pyIndex session.questions (-1) = session.questions.getLast?)
      ∧ (∀ qid question,
          pyIndex session.questions idx = some qid →
          st.questions.find? (fun q => q.id == qid) = some question →
          idx < (session.questions.length : ℤ) →
          get_exam_question uid sid idx st
            = .ok ({ st with
                     exam_sessions :=
                       updateFirst (fun s => s.id == sid)
                         (fun s =>
                           { s with
                             current_question := idx,
                             question_status :=
                               dictSet s.question_status qid .not_answered })
                         st.exam_sessions },
                { question := sanitizeQuestion question,
                  question_number := idx + 1,
                  total_questions := session.questions.length,
                  current_answer := dictGet session.answers qid })) := by
  refine ⟨?_, ?_, ?_, ?_⟩
  · by_cases hlen : (session.questions.length : ℤ) ≤ idx
    · simp [get_exam_question, hs, hns, hlen]
    · cases hpi : pyIndex session.questions idx with
      | none => simp [get_exam_question, hs, hns, hlen, hpi]
      | some qid =>
        cases hfq : st.questions.find? (fun q => q.id == qid) with
        | none => simp [get_exam_question, hs, hns, hlen, hpi, hfq]
        | some question => simp [get_exam_question, hs, hns, hlen, hpi, hfq]
  · intro h1 h2
    simp [pyIndex, not_le.mpr h2, h1]
  · intro hne
    have hlen : 1 ≤ session.questions.length := by
      cases hl : session.questions with
      | nil => exact absurd hl hne
      | cons x xs => simp [hl]
    have hno : ¬ (0 : ℤ) ≤ -1 := by decide
    have hok : -(session.questions.length : ℤ) ≤ -1 := by
      omega
    have htn : ((session.questions.length : ℤ) + -1).toNat
        = session.questions.length - 1 := by
      omega
    rw [pyIndex, if_neg hno, if_pos hok, htn,
      ← List.getLast?_eq_get? session.questions]
  · intro qid question hpi hfq hlt
    simp [get_exam_question, hs, hns, not_le.mpr hlt, hpi, hfq]

theorem negative_index_reaches_list_end_witness :
    pyIndex fxSession.questions (-1) = fxSession.questions.getLast?
      ∧ (get_exam_question "u1" "s1" 2 fxState
          = .error (400, "Invalid question index")
        ↔ (fxSession.questions.length : ℤ) ≤ 2)
      ∧ get_exam_question "u1" "s1" (-1) fxState
          = .ok ({ fxState with
                   exam_sessions :=
                     updateFirst (fun s => s.id == "s1")
                       (fun s =>
                         { s with
                           current_question := -1,
                           question_status :=
                             dictSet s.question_status "q2" .not_answered })
                       fxState.exam_sessions },
              { question := sanitizeQuestion fxQ2,
                question_number := -1 + 1,
                total_questions := fxSession.questions.length,
                current_answer := dictGet fxSession.answers "q2" }) :=
  ⟨(negative_index_reaches_list_end fxState "u1" "s1" (-1) fxSession rfl
      rfl).2.2.1 (by decide),
   (negative_index_reaches_list_end fxState "u1" "s1" 2 fxSession rfl rfl).1,
   (negative_index_reaches_list_end fxState "u1" "s1" (-1) fxSession rfl
      rfl).2.2.2 "q2" fxQ2 (by decide) rfl (by decide)⟩

/-! ### Claim C7 -/

theorem find?_append_of_none {α : Type} (p : α → Bool) (l1 l2 : List α)
    (h : l1.find? p = none) : (l1 ++ l2).find? p = l2.find? p := by
  induction l1 with
  | nil => simp
  | cons x xs ih =>
    cases hx : p x with
    | true => simp [List.find?_cons, hx] at h
    | false =>
      simp only [List.find?_cons, hx] at h
      simpa [List.find?_cons, hx] using ih h

/-- What the creation branch guarantees when it succeeds. -/
theorem start_exam_new_ok (sample : List Question → ℕ → List Question)
    (sid_new : String) (now : ℚ) (uid cfgid : String) (cfg : ExamConfig)
    (st st1 : ServerState) (s1 : ExamSession)
    (h : start_exam_new sample sid_new now uid cfgid cfg st = .ok (st1, s1)) :
    st1 = { st with exam_sessions := st.exam_sessions ++ [s1] }
      ∧ s1.user_id = uid ∧ s1.exam_config_id = cfgid ∧ s1.submitted = false
      ∧ s1.questions
          = (sample (st.questions.filter
              (fun q => cfg.subjects.contains q.subject))
              cfg.total_questions).map (fun q => q.id)
      ∧ cfg.total_questions
          ≤ (st.questions.filter
              (fun q => cfg.subjects.contains q.subject)).length := by
  unfold start_exam_new at h
  by_cases hlen :
      (st.questions.filter
        (fun q => cfg.subjects.contains q.subject)).length < cfg.total_questions
  · rw [if_pos hlen] at h
    exact absurd h (by simp)
  · rw [if_neg hlen] at h
    cases hqs :
        (sample (st.questions.filter
          (fun q => cfg.subjects.contains q.subject))
          cfg.total_questions).map (fun q => q.id) with
    | nil =>
      rw [hqs] at h
      exact absurd h (by simp)
    | cons q0 qrest =>
      rw [hqs] at h
      simp only [Except.ok.injEq, Prod.mk.injEq] at h
      obtain ⟨hst, hs⟩ := h
      subst hs
      refine ⟨hst.symm, rfl, rfl, rfl, ?_, not_lt.mp hlen⟩
      simp [newSession, hqs]

/-- C7: if Start session succeeds, starting again for the same
(user, exam config) returns the very same session and leaves the state
unchanged — idempotent resume, independent of the second call's
randomness, fresh id and clock. -/
theorem start_session_idempotent
    (sample1 sample2 : List Question → ℕ → List Question)
    (sid1 sid2 : String) (n1 n2 : ℚ) (uid cfgid : String)
    (st st1 : ServerState) (s1 : ExamSession)
    (h : start_exam sample1 sid1 n1 uid cfgid st = .ok (st1, s1)) :
    start_exam sample2 sid2 n2 uid cfgid st1 = .ok (st1, s1) := by
  unfold start_exam at h
  cases hcfg : st.exam_configs.find? (fun c => c.id == cfgid) with
  | none =>
    rw [hcfg] at h
    exact absurd h (by simp)
  | some cfg =>
    rw [hcfg] at h
    cases hfs : st.exam_sessions.find? (fun s =>
        s.user_id == uid && s.exam_config_id == cfgid && !s.submitted) with
    | some s =>
      rw [hfs] at h
      simp only [Except.ok.injEq, Prod.mk.injEq] at h
      obtain ⟨hst, hs⟩ := h
      subst hst
      subst hs
      unfold start_exam
      rw [hcfg, hfs]
    | none =>
      rw [hfs] at h
      obtain ⟨hst, hu, hc, hsub, -, -⟩ :=
        start_exam_new_ok sample1 sid1 n1 uid cfgid cfg st st1 s1 h
      subst hst
      unfold start_exam
      have hcfg1 : ({ st with exam_sessions := st.exam_sessions ++ [s1]} :
          ServerState).exam_configs.find? (fun c => c.id == cfgid)
          = some cfg := hcfg
      rw [hcfg1]
      have hpred : (fun (s : ExamSession) =>
          s.user_id == uid && s.exam_config_id == cfgid && !s.submitted) s1
          = true := by
        simp [hu, hc, hsub]
      have : (st.exam_sessions ++ [s1]).find? (fun s =>
          s.user_id == uid && s.exam_config_id == cfgid && !s.submitted)
          = some s1 := by
        rw [find?_append_of_none _ _ _ hfs]
        simp [List.find?_cons, hpred]
      simp only [this]

theorem start_session_idempotent_witness :
    start_exam fxSample "s9" 7 "u1" "e1"
        ((start_exam fxSample "s9" 5 "u1" "e1" fxStartState).toOption.getD
          default).1
      = .ok ((start_exam fxSample "s9" 5 "u1" "e1" fxStartState).toOption.getD
          default) :=
  start_session_idempotent fxSample fxSample "s9" "s9" 5 7 "u1" "e1"
    fxStartState
    ((start_exam fxSample "s9" 5 "u1" "e1" fxStartState).toOption.getD
      default).1
    ((start_exam fxSample "s9" 5 "u1" "e1" fxStartState).toOption.getD
      default).2
    rfl

/-! ### Claim C8 -/

theorem map_updateFirst {α β : Type} (p : α → Bool) (f : α → α) (g : α → β)
    (l : List α) (hg : ∀ x, g (f x) = g x) :
    (updateFirst p f l).map g = l.map g := by
  induction l with
  | nil => rfl
  | cons x xs ih =>
    cases hp : p x with
    | true => simp [updateFirst, hp, hg]
    | false => simp [updateFirst, hp, ih]

theorem get_exam_question_preserves_lists {uid sid : String} {idx : ℤ}
    {st st1 : ServerState} {pl : QuestionPayload}
    (h : get_exam_question uid sid idx st = .ok (st1, pl)) :
    sessionLists st1 = sessionLists st := by
  unfold get_exam_question at h
  split at h
  · simp at h
  · split at h
    · simp at h
    · split at h
      · simp at h
      · split at h
        · simp at h
        · split at h
          · simp at h
          · simp only [Except.ok.injEq, Prod.mk.injEq] at h
            obtain ⟨hst, -⟩ := h
            subst hst
            exact map_updateFirst _ _ _ _ (fun x => rfl)

theorem submit_answer_preserves_lists {uid sid qid : String} {ans : Answer}
    {stat : QuestionStatus} {st st1 : ServerState} {msg : String}
    (h : submit_answer uid sid qid ans stat st = .ok (st1, msg)) :
    sessionLists st1 = sessionLists st := by
  unfold submit_answer at h
  split at h
  · simp at h
  · split at h
    · simp at h
    · simp only [Except.ok.injEq, Prod.mk.injEq] at h
      obtain ⟨hst, -⟩ := h
      subst hst
      exact map_updateFirst _ _ _ _ (fun x => rfl)

theorem submit_exam_preserves_lists {now : ℚ} {rid uid sid : String}
    {st st1 : ServerState} {r : ExamResult}
    (h : submit_exam now rid uid sid st = .ok (st1, r)) :
    sessionLists st1 = sessionLists st := by
  unfold submit_exam at h
  split at h
  · simp at h
  · split at h
    · simp only [Except.ok.injEq, Prod.mk.injEq] at h
      obtain ⟨hst, -⟩ := h
      subst hst
      rfl
    · simp only [Except.ok.injEq, Prod.mk.injEq] at h
      obtain ⟨hst, -⟩ := h
      subst hst
      exact map_updateFirst _ _ _ _ (fun x => rfl)

/-- C8: at creation a session's question-id list has exactly
`total_questions` elements (given `random.sample`'s length contract), and
none of Fetch question, Submit answer or Submit exam ever changes any
session's question list. -/
theorem question_list_length_invariant :
    (∀ (sample : List Question → ℕ → List Question) (sid_new : String)
        (now : ℚ) (uid cfgid : String) (cfg : ExamConfig)
        (st st1 : ServerState) (s1 : ExamSession),
      (∀ pool k, k ≤ pool.length → (sample pool k).length = k) →
      st.exam_configs.find? (fun c => c.id == cfgid) = some cfg →
      start_exam sample sid_new now uid cfgid st = .ok (st1, s1) →
      s1 ∈ st.exam_sessions
        ∨ (s1.questions.length = cfg.total_questions
            ∧ st1.exam_sessions = st.exam_sessions ++ [s1]))
      ∧ (∀ (uid sid : String) (idx : ℤ) (st st1 : ServerState)
            (pl : QuestionPayload),
          get_exam_question uid sid idx st = .ok (st1, pl) →
          sessionLists st1 = sessionLists st)
      ∧ (∀ (uid sid qid : String) (ans : Answer) (stat : QuestionStatus)
            (st st1 : ServerState) (msg : String),
          submit_answer uid sid qid ans stat st = .ok (st1, msg) →
          sessionLists st1 = sessionLists st)
      ∧ (∀ (now : ℚ) (rid uid sid : String) (st st1 : ServerState)
            (r : ExamResult),
          submit_exam now rid uid sid st = .ok (st1, r) →
          sessionLists st1 = sessionLists st) := by
  refine ⟨?_, ?_, ?_, ?_⟩
  · intro sample sid_new now uid cfgid cfg st st1 s1 hsample hcfg hstart
    unfold start_exam at hstart
    rw [hcfg] at hstart
    cases hfs : st.exam_sessions.find? (fun s =>
        s.user_id == uid && s.exam_config_id == cfgid && !s.submitted) with
    | some s =>
      rw [hfs] at hstart
      simp only [Except.ok.injEq, Prod.mk.injEq] at hstart
      obtain ⟨-, hs⟩ := hstart
      subst hs
      exact Or.inl (List.mem_of_find?_eq_some hfs)
    | none =>
      rw [hfs] at hstart
      obtain ⟨hst, -, -, -, hq, hle⟩ :=
        start_exam_new_ok sample sid_new now uid cfgid cfg st st1 s1 hstart
      refine Or.inr ⟨?_, by rw [hst]⟩
      rw [hq, List.length_map]
      exact hsample _ _ hle
  · intro uid sid idx st st1 pl h
    exact get_exam_question_preserves_lists h
  · intro uid sid qid ans stat st st1 msg h
    exact submit_answer_preserves_lists h
  · intro now rid uid sid st st1 r h
    exact submit_exam_preserves_lists h

theorem question_list_length_invariant_witness :
    (fxStarted.2 ∈ fxStartState.exam_sessions
        ∨ (fxStarted.2.questions.length = fxCfg.total_questions
            ∧ fxStarted.1.exam_sessions
              = fxStartState.exam_sessions ++ [fxStarted.2]))
      ∧ sessionLists fxFetched.1 = sessionLists fxState
      ∧ sessionLists fxAnswered.1 = sessionLists fxState
      ∧ sessionLists fxSubmitted.1 = sessionLists fxState :=
  ⟨question_list_length_invariant.1 fxSample "s9" 5 "u1" "e1" fxCfg
      fxStartState fxStarted.1 fxStarted.2
      (fun pool k hk => by simp [fxSample, Nat.min_eq_left hk])
      rfl rfl,
   question_list_length_invariant.2.1 "u1" "s1" 0 fxState fxFetched.1
      fxFetched.2 rfl,
   question_list_length_invariant.2.2.1 "u1" "s1" "q2" (.str "o3") .answered
      fxState fxAnswered.1 fxAnswered.2 rfl,
   question_list_length_invariant.2.2.2 120 "r1" "u1" "s1" fxState
      fxSubmitted.1 fxSubmitted.2 rfl⟩

/-! ### Claim C1 -/

theorem find?_updateFirst {α : Type} (p q : α → Bool) (f : α → α)
    (l : List α) (hagree : ∀ x ∈ l, p x = q x) (hf : ∀ x, p (f x) = p x) :
    (updateFirst q f l).find? p = (l.find? p).map f := by
  induction l with
  | nil => rfl
  | cons x xs ih =>
    have hx : p x = q x := hagree x (by simp)
    cases hq : q x with
    | true =>
      have hpx : p x = true := by rw [hx, hq]
      simp [updateFirst, hq, List.find?_cons, hf, hpx]
    | false =>
      have hpx : p x = false := by rw [hx, hq]
      simp only [updateFirst, hq, if_false, Bool.false_eq_true,
        List.find?_cons, hpx]
      exact ih (fun y hy => hagree y (by simp [hy]))

theorem filter_eq_nil_of_find?_eq_none {α : Type} (p : α → Bool) (l : List α)
    (h : l.find? p = none) : l.filter p = [] := by
  rw [List.filter_eq_nil]
  intro a ha
  have := List.find?_eq_none.mp h a ha
  simpa using this

/-- C1: once Submit exam has succeeded, submitting the same session again
returns the very same stored Result and leaves the state unchanged (no
recomputation with the new clock or id), and when the session had no Result
yet, exactly one Result document for it exists afterwards.  The hypotheses
are the store invariants maintained by the routes: session ids are unique
to their owner, and a Result exists only for a submitted session. -/
theorem submit_exam_idempotent (n1 n2 : ℚ) (rid1 rid2 uid sid : String)
    (st st1 : ServerState) (r : ExamResult)
    (hid : ∀ s ∈ st.exam_sessions, s.id = sid → s.user_id = uid)
    (hres : st.exam_results.find? (fun x => x.exam_session_id == sid) = none
        ∨ ∃ s, findSession st uid sid = some s ∧ s.submitted = true)
    (h : submit_exam n1 rid1 uid sid st = .ok (st1, r)) :
    submit_exam n2 rid2 uid sid st1 = .ok (st1, r)
      ∧ (st.exam_results.find? (fun x => x.exam_session_id == sid) = none →
          st1.exam_results.filter (fun x => x.exam_session_id == sid) = [r]) := by
  unfold submit_exam at h
  split at h
  · simp at h
  · rename_i session hfs
    unfold findSession at hfs
    have hp := List.find?_some hfs
    simp only [Bool.and_eq_true, beq_iff_eq] at hp
    obtain ⟨hsid, huid⟩ := hp
    split at h
    · -- already submitted, stored result returned verbatim
      rename_i r0 hr0
      simp only [Except.ok.injEq, Prod.mk.injEq] at h
      obtain ⟨hst, hr⟩ := h
      subst hst
      subst hr
      constructor
      · simp only [submit_exam, findSession, hfs, hr0]
      · intro hnone
        cases hsub : session.submitted with
        | false => simp [hsub] at hr0
        | true =>
          simp only [hsub, if_true] at hr0
          rw [hnone] at hr0
          exact absurd hr0 (by simp)
    · -- fresh scoring path
      rename_i hnone0
      simp only [Except.ok.injEq, Prod.mk.injEq] at h
      obtain ⟨hst, hr⟩ := h
      subst hst
      subst hr
      have hfnone :
          st.exam_results.find? (fun x => x.exam_session_id == sid) = none := by
        cases hsub : session.submitted with
        | true => simpa [hsub] using hnone0
        | false =>
          rcases hres with hn | ⟨s, hs1, hs2⟩
          · exact hn
          · unfold findSession at hs1
            have : s = session := by
              have := hs1.symm.trans hfs
              exact Option.some.inj this
            subst this
            rw [hsub] at hs2
            exact absurd hs2 (by simp)
      have hagree : ∀ x ∈ st.exam_sessions,
          (fun (s : ExamSession) => s.id == sid && s.user_id == uid) x
            = (fun (s : ExamSession) => s.id == sid) x := by
        intro x hx
        by_cases hxi : x.id = sid
        · simp [hxi, hid x hx hxi]
        · simp [hxi]
      have hfind1 :
          (updateFirst (fun s => s.id == sid)
            (fun s => { s with submitted := true, end_time := some n1 })
            st.exam_sessions).find?
              (fun s => s.id == sid && s.user_id == uid)
            = some { session with submitted := true, end_time := some n1 } := by
        rw [find?_updateFirst
          (fun s => s.id == sid && s.user_id == uid)
          (fun s => s.id == sid)
          (fun s => { s with submitted := true, end_time := some n1 })
          st.exam_sessions hagree (fun x => rfl), hfs]
        rfl
      have hresfind :
          (st.exam_results
            ++ [computeResult n1 rid1 uid st.questions session]).find?
              (fun x => x.exam_session_id == sid)
            = some (computeResult n1 rid1 uid st.questions session) := by
        rw [find?_append_of_none _ _ _ hfnone]
        have : (computeResult n1 rid1 uid st.questions session).exam_session_id
            = sid := hsid
        simp [List.find?_cons, this]
      constructor
      · simp only [submit_exam, findSession]
        rw [hfind1]
        simp only [if_true]
        rw [hresfind]
      · intro hnone
        have h1 : st.exam_results.filter (fun x => x.exam_session_id == sid)
            = [] := filter_eq_nil_of_find?_eq_none _ _ hnone
        simp only [List.filter_append, h1, List.nil_append]
        have : (computeResult n1 rid1 uid st.questions session).exam_session_id
            = sid := hsid
        simp [List.filter, this]

theorem submit_exam_idempotent_witness :
    submit_exam 999 "r2" "u1" "s1" fxSubmitted.1
      = .ok (fxSubmitted.1, fxSubmitted.2) :=
  (submit_exam_idempotent 120 999 "r1" "r2" "u1" "s1" fxState fxSubmitted.1
    fxSubmitted.2 (by decide) (Or.inl rfl) rfl).1

/-! ### Claim C2 (corrected)

`get_exam_question` deletes `correct_answer` and the options' `is_correct`
from the document and then rebuilds the pydantic `Question` model, whose
declared defaults refill those fields with `None` and `False`; the
serialized payload therefore still *contains* both field names (with
constant values), while carrying no information about the stored key. -/

theorem sanitize_options_eq {l l' : List QuestionOption}
    (h : List.Forall₂ optionKeyEquiv l l') :
    l.map (fun o => { o with is_correct := false })
      = l'.map (fun o => { o with is_correct := false }) := by
  induction h with
  | nil => rfl
  | cons hxy ht iht =>
    obtain ⟨hi, htx⟩ := hxy
    simp [hi, htx, iht]

theorem sanitize_eq_of_keyEquiv {q q' : Question}
    (h : questionKeyEquiv q q') :
    sanitizeQuestion q = sanitizeQuestion q' := by
  obtain ⟨h1, h2, h3, h4, h5, h6, h7, h8, hopts, h9, h10, h11⟩ := h
  have hmap := sanitize_options_eq hopts
  cases q
  cases q'
  simp only [sanitizeQuestion] at hmap ⊢
  simp_all

theorem find?_of_forall₂_keyEquiv {l1 l2 : List Question}
    (h : List.Forall₂ questionKeyEquiv l1 l2) (qid : String) :
    ∀ q1, l1.find? (fun q => q.id == qid) = some q1 →
      ∃ q2, l2.find? (fun q => q.id == qid) = some q2
        ∧ questionKeyEquiv q1 q2 := by
  induction h with
  | nil =>
    intro q1 h1
    simp at h1
  | cons hab ht ih =>
    rename_i a b l1' l2'
    intro q1 h1
    have hid : a.id = b.id := hab.1
    by_cases hq : a.id = qid
    · have hpa : (a.id == qid) = true := by simp [hq]
      have hpb : (b.id == qid) = true := by simp [← hid, hq]
      simp only [List.find?_cons, hpa, if_true] at h1
      have hq1 : a = q1 := Option.some.inj h1
      subst hq1
      refine ⟨b, ?_, hab⟩
      simp only [List.find?_cons, hpb, if_true]
    · have hpa : (a.id == qid) = false := by simp [hq]
      have hpb : (b.id == qid) = false := by simp [← hid, hq]
      simp only [List.find?_cons, hpa, Bool.false_eq_true, if_false] at h1
      obtain ⟨q2, h2, hrel⟩ := ih q1 h1
      refine ⟨q2, ?_, hrel⟩
      simp only [List.find?_cons, hpb, Bool.false_eq_true, if_false]
      exact h2

/-- C2 counterexample: the payload of a concrete Fetch question call, as
serialized by the framework from the rebuilt pydantic model, does contain a
`correct_answer` field and an `is_correct` field on every option (with the
default values `null` and `false`). -/
theorem question_payload_counterexample :
    (get_exam_question "u1" "s1" 0 fxState).toOption.isSome = true
      ∧ "correct_answer" ∈ objKeys (questionToJson fxFetched.2.question)
      ∧ fxFetched.2.question.options ≠ []
      ∧ ∀ o ∈ fxFetched.2.question.options,
          "is_correct" ∈ objKeys (optionToJson o) := by
  refine ⟨by decide, by decide, by decide, by decide⟩

/-- C2 (amended): the payload leaks nothing about the answer key — the
response is identical for any two question stores that differ only in the
answer-key fields, and the rebuilt question always carries
`correct_answer = none` and `is_correct = false` on every option — but the
field names themselves are still present in the serialized payload (see the
counterexample). -/
theorem question_payload_key_noninterference (st : ServerState)
    (qs2 : List Question) (uid sid : String) (idx : ℤ)
    (st1 : ServerState) (pl : QuestionPayload)
    (hrel : List.Forall₂ questionKeyEquiv st.questions qs2)
    (h : get_exam_question uid sid idx st = .ok (st1, pl)) :
    get_exam_question uid sid idx { st with questions := qs2 }
        = .ok ({ st1 with questions := qs2 }, pl)
      ∧ pl.question.correct_answer = none
      ∧ ∀ o ∈ pl.question.options, o.is_correct = false := by
  unfold get_exam_question at h
  split at h
  · simp at h
  · rename_i session hfs
    split at h
    · simp at h
    · rename_i hsub
      split at h
      · simp at h
      · rename_i hlen
        split at h
        · simp at h
        · rename_i qid hpi
          split at h
          · simp at h
          · rename_i question hfq
            obtain ⟨q2, hfq2, hq2⟩ := find?_of_forall₂_keyEquiv hrel qid
              question hfq
            simp only [Except.ok.injEq, Prod.mk.injEq] at h
            obtain ⟨hst, hpl⟩ := h
            subst hst
            subst hpl
            have hsan := sanitize_eq_of_keyEquiv hq2
            have hfs' : findSession { st with questions := qs2 } uid sid
                = some session := hfs
            refine ⟨?_, rfl, ?_⟩
            · simp only [get_exam_question, hfs', hsub, hlen, hpi, hfq2,
                if_neg, if_false]
              simp [hsan]
            · intro o ho
              simp only [sanitizeQuestion, List.mem_map] at ho
              obtain ⟨o', -, rfl⟩ := ho
              rfl

theorem question_payload_key_noninterference_witness :
    get_exam_question "u1" "s1" 0 { fxState with questions := fxQs2 }
        = .ok ({ fxFetched.1 with questions := fxQs2 }, fxFetched.2)
      ∧ fxFetched.2.question.correct_answer = none :=
  ⟨(question_payload_key_noninterference fxState fxQs2 "u1" "s1" 0
      fxFetched.1 fxFetched.2
      (List.Forall₂.cons
        ⟨rfl, rfl, rfl, rfl, rfl, rfl, rfl, rfl,
          List.Forall₂.cons ⟨rfl, rfl⟩
            (List.Forall₂.cons ⟨rfl, rfl⟩ List.Forall₂.nil),
          rfl, rfl, rfl⟩
        (List.Forall₂.cons
          ⟨rfl, rfl, rfl, rfl, rfl, rfl, rfl, rfl,
            List.Forall₂.cons ⟨rfl, rfl⟩
              (List.Forall₂.cons ⟨rfl, rfl⟩ List.Forall₂.nil),
            rfl, rfl, rfl⟩
          List.Forall₂.nil))
      rfl).1,
   (question_payload_key_noninterference fxState fxQs2 "u1" "s1" 0
      fxFetched.1 fxFetched.2
      (List.Forall₂.cons
        ⟨rfl, rfl, rfl, rfl, rfl, rfl, rfl, rfl,
          List.Forall₂.cons ⟨rfl, rfl⟩
            (List.Forall₂.cons ⟨rfl, rfl⟩ List.Forall₂.nil),
          rfl, rfl, rfl⟩
        (List.Forall₂.cons
          ⟨rfl, rfl, rfl, rfl, rfl, rfl, rfl, rfl,
            List.Forall₂.cons ⟨rfl, rfl⟩
              (List.Forall₂.cons ⟨rfl, rfl⟩ List.Forall₂.nil),
            rfl, rfl, rfl⟩
          List.Forall₂.nil))
      rfl).2.1⟩

end GateExam

